import Mathlib

/-!
Verification of the BP-POC chat-completions adapter (`src/adapter.py`).

The adapter exposes an OpenAI-compatible `/v1/chat/completions` endpoint in
front of a non-streaming upstream backend.  We shallowly embed its pure
request/response logic: strings are `List Char`, the random UUID and the
timestamp are explicit parameters (the handler captures them once), the
upstream HTTP response is a value describing status code, raw body text and
the `message`/`error` fields of the parsed JSON body, and the SSE stream is
the list of emitted events (`data: <json>` chunks followed by the literal
`data: [DONE]` sentinel).
-/

/-- Python `str.strip()`: remove leading and trailing whitespace. -/
def strip (s : List Char) : List Char :=
  ((s.dropWhile Char.isWhitespace).reverse.dropWhile Char.isWhitespace).reverse

/-- Message roles accepted by the pydantic model (`ChatMessage.role`). -/
inductive Role where
  | system
  | user
  | assistant
deriving DecidableEq, Repr

/-- Model of the `ChatMessage` pydantic model: a role and a content string. -/
structure ChatMessage where
  role : Role
  content : List Char
deriving DecidableEq, Repr

/-- Model of the `ChatCompletionsRequest` pydantic model (the `model` field is an opaque
passthrough, `user` is the optional session hint). -/
structure ChatCompletionsRequest where
  model : String
  messages : List ChatMessage
  stream : Bool
  user : Option (List Char)
deriving DecidableEq, Repr

/-- The loop body of `last_user_message`: `for m in reversed(messages): if
m.role == "user" and m.content: return m.content`, applied to the already
reversed list. -/
def lum_loop : List ChatMessage → List Char
  | [] => []
  | m :: rest => if m.role = Role.user ∧ m.content ≠ [] then m.content else lum_loop rest

/-- Embedding of `last_user_message` (adapter.py lines 57-61). -/
def last_user_message (messages : List ChatMessage) : List Char :=
  lum_loop messages.reverse

/-- Embedding of `chunk_text` (adapter.py lines 64-67): for non-positive `chunk_size`
return the whole text as one fragment, otherwise the slices
`text[i : i + chunk_size]` for `i in range(0, len(text), chunk_size)`. -/
def chunk_text (text : List Char) (chunk_size : Int) : List (List Char) :=
  if chunk_size ≤ 0 then [text]
  else
    let n := chunk_size.toNat
    (List.range ((text.length + n - 1) / n)).map (fun i => (text.drop (i * n)).take n)

theorem chunk_text_example : chunk_text "Hi there".toList 5 = ["Hi th".toList, "ere".toList] := by
  decide

/-- Auxiliary: the slices at indices `0, n, 2n, …` cover the list exactly
when `k·n` bounds its length. -/
theorem range_chunks_join (n : Nat) :
    ∀ (k : Nat) (t : List Char), t.length ≤ k * n →
      ((List.range k).map (fun i => (t.drop (i * n)).take n)).flatten = t := by
  intro k
  induction k with
  | zero =>
      intro t ht
      simp only [Nat.zero_mul, Nat.le_zero, List.length_eq_zero] at ht
      simp [ht]
  | succ k ih =>
      intro t ht
      rw [List.range_succ_eq_map, List.map_cons, List.map_map, List.flatten_cons]
      have hdrop : ∀ i : Nat, t.drop (Nat.succ i * n) = (t.drop n).drop (i * n) := by
        intro i
        rw [List.drop_drop]
        congr 1
        rw [Nat.succ_mul, Nat.add_comm]
      have hmap :
          ((List.range k).map ((fun i => (t.drop (i * n)).take n) ∘ Nat.succ)) =
            (List.range k).map (fun i => ((t.drop n).drop (i * n)).take n) := by
        apply List.map_congr_left
        intro i _
        simp only [Function.comp]
        rw [hdrop i]
      have hsm : (k + 1) * n = k * n + n := Nat.succ_mul k n
      rw [hmap, ih (t.drop n) (by simp only [List.length_drop]; omega)]
      simp [List.take_append_drop]

/-- Concatenating the fragments of `chunk_text` restores the text, for every
integer chunk size. -/
theorem chunk_text_join (text : List Char) (chunk_size : Int) :
    (chunk_text text chunk_size).flatten = text := by
  unfold chunk_text
  by_cases h : chunk_size ≤ 0
  · simp [h]
  · simp only [h, if_false]
    set n := chunk_size.toNat with hdefn
    set L := text.length with hdefL
    have hcover : L ≤ ((L + n - 1) / n) * n := by
      have hdm := Nat.div_add_mod (L + n - 1) n
      have hlt : (L + n - 1) % n < n := Nat.mod_lt _ (by omega)
      have : ((L + n - 1) / n) * n = n * ((L + n - 1) / n) := Nat.mul_comm _ _
      omega
    exact range_chunks_join n _ text hcover

/-- The `delta` object of a streaming chunk: `content` is present on every
content-bearing chunk, `role` only on the first one; the terminator chunk has
the empty delta (both fields absent). -/
structure Delta where
  role : Option String
  content : Option (List Char)
deriving DecidableEq, Repr

/-- One element of a chunk's `choices` array. -/
structure ChunkChoice where
  index : Nat
  delta : Delta
  finish_reason : Option String
deriving DecidableEq, Repr

/-- A streaming `chat.completion.chunk` event body. -/
structure Chunk where
  id : String
  object : String
  created : Int
  model : String
  choices : List ChunkChoice
deriving DecidableEq, Repr

/-- One SSE emission of `sse_gen`: either a `data: <json chunk>` line or the
literal `data: [DONE]` sentinel. -/
inductive SSEEvent where
  | data (c : Chunk)
  | done
deriving DecidableEq, Repr

/-- The chunk built for one fragment inside the `sse_gen` loop
(adapter.py lines 152-170): `delta = {"content": part}`, plus
`delta["role"] = "assistant"` when the `first` flag is still set. -/
def mk_content_chunk (stream_id : String) (created : Int) (model : String)
    (part : List Char) (first : Bool) : Chunk :=
  { id := stream_id
    object := "chat.completion.chunk"
    created := created
    model := model
    choices := [{ index := 0
                  delta := { role := if first then some "assistant" else none
                             content := some part }
                  finish_reason := none }] }

/-- The `for part in chunk_text(...)` loop of `sse_gen`, with the mutable
`first` flag made an explicit parameter. -/
def content_chunks (stream_id : String) (created : Int) (model : String) :
    Bool → List (List Char) → List Chunk
  | _, [] => []
  | first, part :: rest =>
      mk_content_chunk stream_id created model part first ::
        content_chunks stream_id created model false rest

/-- The final stop chunk of `sse_gen` (adapter.py lines 174-186):
empty delta, `finish_reason: "stop"`. -/
def final_chunk (stream_id : String) (created : Int) (model : String) : Chunk :=
  { id := stream_id
    object := "chat.completion.chunk"
    created := created
    model := model
    choices := [{ index := 0
                  delta := { role := none, content := none }
                  finish_reason := some "stop" }] }

/-- Embedding of `sse_gen` (adapter.py lines 149-188): the full sequence of SSE emissions,
in emission order — one chunk per fragment of `chunk_text`, then the final
stop chunk, then the `[DONE]` sentinel. -/
def sse_gen (stream_id : String) (created : Int) (model : String)
    (assistant_text : List Char) (chunk_size : Int) : List SSEEvent :=
  (content_chunks stream_id created model true (chunk_text assistant_text chunk_size)).map
      SSEEvent.data
    ++ [SSEEvent.data (final_chunk stream_id created model), SSEEvent.done]

/-- The concatenated `delta.content` payload of a chunk (its single choice's
content if present, nothing otherwise). -/
def chunk_delta_content (c : Chunk) : List Char :=
  (c.choices.filterMap (fun ch => ch.delta.content)).flatten

/-- The chunks of a stream, dropping the `[DONE]` sentinel. -/
def stream_chunks (events : List SSEEvent) : List Chunk :=
  events.filterMap (fun e =>
    match e with
    | SSEEvent.data c => some c
    | SSEEvent.done => none)

/-- Concatenation of all `delta.content` payloads of a stream, in emission
order. -/
def stream_text (events : List SSEEvent) : List Char :=
  ((stream_chunks events).map chunk_delta_content).flatten

/-- The content-bearing chunks of a stream: those whose delta carries a
`content` field (the terminator's delta is empty, so it is excluded). -/
def stream_content_chunks (events : List SSEEvent) : List Chunk :=
  (stream_chunks events).filter
    (fun c => c.choices.any (fun ch => ch.delta.content.isSome))

/-- The `message` object of the non-streaming envelope. -/
structure EnvMessage where
  role : String
  content : List Char
deriving DecidableEq, Repr

/-- One element of the non-streaming envelope's `choices` array. -/
structure EnvChoice where
  index : Nat
  message : EnvMessage
  finish_reason : Option String
deriving DecidableEq, Repr

/-- The non-streaming `chat.completion` response body. -/
structure Envelope where
  id : String
  object : String
  created : Int
  model : String
  choices : List EnvChoice
deriving DecidableEq, Repr

/-- The non-streaming `JSONResponse` built by `chat_completions`
(adapter.py lines 132-146). -/
def non_streaming_response (stream_id : String) (created : Int) (model : String)
    (assistant_text : List Char) : Envelope :=
  { id := stream_id
    object := "chat.completion"
    created := created
    model := model
    choices := [{ index := 0
                  message := { role := "assistant", content := assistant_text }
                  finish_reason := some "stop" }] }

/-- Python's `a or b` on optional strings: `a` is falsy when it is `None` or
the empty string. -/
def py_or (a b : Option (List Char)) : Option (List Char) :=
  match a with
  | none => b
  | some s => if s = [] then b else some s

/-- Embedding of `(data.get("message") or data.get("error") or "").strip()`
(adapter.py line 125), with the two relevant fields of the parsed JSON body
passed explicitly (`none` = field absent or null). -/
def extract_assistant_text (message err : Option (List Char)) : List Char :=
  strip ((py_or (py_or message err) (some [])).getD [])

/-- Embedding of `(body.user or str(uuid.uuid4())).strip()` (adapter.py line 93); the
freshly generated UUID string is an explicit parameter. -/
def resolve_sender_id (user : Option (List Char)) (fresh_uuid : List Char) : List Char :=
  strip ((py_or user (some fresh_uuid)).getD [])

/-- An error response raised via `HTTPException(status_code, detail)`. -/
structure HTTPError where
  status_code : Nat
  detail : List Char
deriving DecidableEq, Repr

/-- The payload POSTed to the upstream endpoint (adapter.py lines 95-99). -/
structure UpstreamPayload where
  workflow_id : List Char
  sender_id : List Char
  user_message : List Char
deriving DecidableEq, Repr

/-- The upstream HTTP response as the handler observes it: status code, raw
body text (`resp.text`), and — when the body parses as JSON — the values of
its `message` and `error` fields (`none` = absent or null). -/
structure UpstreamResp where
  status_code : Nat
  text : List Char
  json : Option (Option (List Char) × Option (List Char))
deriving DecidableEq, Repr

/-- The two shapes of a successful handler result: a JSON envelope or a
streamed SSE body. -/
inductive HandlerResponse where
  | json (env : Envelope)
  | stream (events : List SSEEvent)
deriving DecidableEq, Repr

/-- Embedding of `user_text = last_user_message(body.messages).strip()` followed by the
400 guard (adapter.py lines 87-89). -/
def extract_user_text (messages : List ChatMessage) : Except HTTPError (List Char) :=
  let user_text := strip (last_user_message messages)
  if user_text = [] then
    Except.error ⟨400, "No user message found in messages[]".toList⟩
  else
    Except.ok user_text

/-- The pure core of the `chat_completions` handler (adapter.py lines
86-190).  Effects are made explicit parameters: `fresh_uuid` is the
`str(uuid.uuid4())` drawn for the sender id, `hex` the `uuid4().hex` of the
stream id, `created` the `int(time.time())` captured once, and `resp` the
upstream HTTP response (the transport-failure branch is outside this pure
core).  On the 400 path the upstream payload is never built, so `.error`
carries no payload; on success the result pairs the payload sent upstream
with the response body. -/
def chat_completions (workflow_id : List Char) (chunk_size : Int)
    (body : ChatCompletionsRequest) (fresh_uuid : List Char) (hex : String)
    (created : Int) (resp : UpstreamResp) :
    Except HTTPError (UpstreamPayload × HandlerResponse) :=
  match extract_user_text body.messages with
  | Except.error e => Except.error e
  | Except.ok user_text =>
    let sender_id := resolve_sender_id body.user fresh_uuid
    let payload : UpstreamPayload :=
      { workflow_id := workflow_id, sender_id := sender_id, user_message := user_text }
    if 400 ≤ resp.status_code then
      Except.error ⟨502, "Lili error ".toList ++ (toString resp.status_code).toList
                          ++ ": ".toList ++ resp.text⟩
    else
      match resp.json with
      | none => Except.error ⟨502, "Lili returned non-JSON: ".toList ++ resp.text⟩
      | some (message, err) =>
        let assistant_text := extract_assistant_text message err
        let stream_id := "chatcmpl-" ++ hex
        if body.stream then
          Except.ok (payload,
            HandlerResponse.stream (sse_gen stream_id created body.model assistant_text chunk_size))
        else
          Except.ok (payload,
            HandlerResponse.json (non_streaming_response stream_id created body.model assistant_text))

/-- The `delta.content` values of a chunk's choices. -/
def chunk_contents (c : Chunk) : List (Option (List Char)) :=
  c.choices.map (fun ch => ch.delta.content)

/-- The `delta.role` values of a chunk's choices. -/
def chunk_roles (c : Chunk) : List (Option String) :=
  c.choices.map (fun ch => ch.delta.role)

/-- The `finish_reason` values of a chunk's choices. -/
def chunk_finishes (c : Chunk) : List (Option String) :=
  c.choices.map (fun ch => ch.finish_reason)

theorem chunk_delta_content_mk (sid : String) (cr : Int) (mdl : String)
    (part : List Char) (first : Bool) :
    chunk_delta_content (mk_content_chunk sid cr mdl part first) = part := by
  simp [chunk_delta_content, mk_content_chunk]

theorem content_chunks_map_delta (sid : String) (cr : Int) (mdl : String) :
    ∀ (first : Bool) (l : List (List Char)),
      (content_chunks sid cr mdl first l).map chunk_delta_content = l := by
  intro first l
  induction l generalizing first with
  | nil => rfl
  | cons p rest ih =>
      simp only [content_chunks, List.map_cons, chunk_delta_content_mk, ih]

theorem stream_chunks_sse_gen (sid : String) (cr : Int) (mdl : String)
    (text : List Char) (size : Int) :
    stream_chunks (sse_gen sid cr mdl text size)
      = content_chunks sid cr mdl true (chunk_text text size) ++ [final_chunk sid cr mdl] := by
  simp [stream_chunks, sse_gen, List.filterMap_append, List.filterMap_map,
        Function.comp_def, List.filterMap_some]

theorem chunk_delta_content_final (sid : String) (cr : Int) (mdl : String) :
    chunk_delta_content (final_chunk sid cr mdl) = [] := by
  simp [chunk_delta_content, final_chunk]

/-- Helper: `stream_text` of `sse_gen` is the original answer text. -/
theorem stream_text_sse_gen (sid : String) (cr : Int) (mdl : String)
    (text : List Char) (size : Int) :
    stream_text (sse_gen sid cr mdl text size) = text := by
  unfold stream_text
  rw [stream_chunks_sse_gen, List.map_append, List.flatten_append,
      content_chunks_map_delta, chunk_text_join]
  simp [chunk_delta_content_final]

theorem content_chunks_filter_content (sid : String) (cr : Int) (mdl : String) :
    ∀ (first : Bool) (l : List (List Char)),
      (content_chunks sid cr mdl first l).filter
          (fun c => c.choices.any (fun ch => ch.delta.content.isSome))
        = content_chunks sid cr mdl first l := by
  intro first l
  induction l generalizing first with
  | nil => rfl
  | cons p rest ih =>
      simp only [content_chunks, List.filter_cons]
      rw [ih]
      simp [mk_content_chunk]

theorem stream_content_chunks_sse_gen (sid : String) (cr : Int) (mdl : String)
    (text : List Char) (size : Int) :
    stream_content_chunks (sse_gen sid cr mdl text size)
      = content_chunks sid cr mdl true (chunk_text text size) := by
  unfold stream_content_chunks
  rw [stream_chunks_sse_gen, List.filter_append, content_chunks_filter_content]
  simp [final_chunk]

theorem content_chunks_map_contents (sid : String) (cr : Int) (mdl : String) :
    ∀ (first : Bool) (l : List (List Char)),
      (content_chunks sid cr mdl first l).map chunk_contents
        = l.map (fun part => [some part]) := by
  intro first l
  induction l generalizing first with
  | nil => rfl
  | cons p rest ih =>
      simp only [content_chunks, List.map_cons, ih]
      simp [chunk_contents, mk_content_chunk]

theorem content_chunks_map_roles_false (sid : String) (cr : Int) (mdl : String) :
    ∀ (l : List (List Char)),
      (content_chunks sid cr mdl false l).map chunk_roles
        = l.map (fun _ => [(none : Option String)]) := by
  intro l
  induction l with
  | nil => rfl
  | cons p rest ih =>
      simp only [content_chunks, List.map_cons, ih]
      simp [chunk_roles, mk_content_chunk]

/-- C5: each content chunk's `delta.content` equals its fragment (every
choice carries exactly the fragment), the first content chunk's delta carries
`role: "assistant"`, and no later chunk — including the terminator — carries
a role field. -/
theorem first_chunk_carries_assistant_role (sid : String) (cr : Int) (mdl : String)
    (text : List Char) (size : Int) :
    (stream_content_chunks (sse_gen sid cr mdl text size)).map chunk_contents
        = (chunk_text text size).map (fun part => [some part])
    ∧ (stream_chunks (sse_gen sid cr mdl text size)).map chunk_roles
        = (match chunk_text text size with
           | [] => []
           | _ :: rest => [some "assistant"] :: rest.map (fun _ => [(none : Option String)]))
          ++ [[(none : Option String)]] := by
  constructor
  · rw [stream_content_chunks_sse_gen, content_chunks_map_contents]
  · rw [stream_chunks_sse_gen, List.map_append]
    cases h : chunk_text text size with
    | nil => simp [content_chunks, chunk_roles, final_chunk]
    | cons p rest =>
        simp only [content_chunks, List.map_cons, content_chunks_map_roles_false]
        simp [chunk_roles, mk_content_chunk, final_chunk]

theorem content_chunks_map_finishes (sid : String) (cr : Int) (mdl : String) :
    ∀ (first : Bool) (l : List (List Char)),
      (content_chunks sid cr mdl first l).map chunk_finishes
        = List.replicate l.length [(none : Option String)] := by
  intro first l
  induction l generalizing first with
  | nil => rfl
  | cons p rest ih =>
      simp only [content_chunks, List.map_cons, ih, List.length_cons]
      simp [chunk_finishes, mk_content_chunk, List.replicate_succ]

theorem content_chunks_length (sid : String) (cr : Int) (mdl : String) :
    ∀ (first : Bool) (l : List (List Char)),
      (content_chunks sid cr mdl first l).length = l.length := by
  intro first l
  induction l generalizing first with
  | nil => rfl
  | cons p rest ih => simp only [content_chunks, List.length_cons, ih]

/-- C6: the emission sequence is exactly the content chunks (all with
`finish_reason: null`), then one terminator chunk with empty delta and
`finish_reason: "stop"`, then the literal `[DONE]` sentinel as the last
emission — including the degenerate case of empty answer text, where the
content-chunk list may be empty. -/
theorem stream_ends_with_stop_and_done (sid : String) (cr : Int) (mdl : String)
    (text : List Char) (size : Int) :
    ∃ cs : List Chunk,
      sse_gen sid cr mdl text size
          = cs.map SSEEvent.data
            ++ [SSEEvent.data (final_chunk sid cr mdl), SSEEvent.done]
      ∧ cs.length = (chunk_text text size).length
      ∧ cs.map chunk_finishes = List.replicate cs.length [(none : Option String)]
      ∧ (final_chunk sid cr mdl).choices
          = [{ index := 0
               delta := { role := none, content := none }
               finish_reason := some "stop" }] := by
  refine ⟨content_chunks sid cr mdl true (chunk_text text size), rfl, ?_, ?_, rfl⟩
  · exact content_chunks_length sid cr mdl true _
  · rw [content_chunks_map_finishes, content_chunks_length]

theorem content_chunks_map_id (sid : String) (cr : Int) (mdl : String) :
    ∀ (first : Bool) (l : List (List Char)),
      (content_chunks sid cr mdl first l).map (fun c => c.id)
        = List.replicate l.length sid := by
  intro first l
  induction l generalizing first with
  | nil => rfl
  | cons p rest ih =>
      simp only [content_chunks, List.map_cons, ih, List.length_cons]
      simp [mk_content_chunk, List.replicate_succ]

theorem content_chunks_map_created (sid : String) (cr : Int) (mdl : String) :
    ∀ (first : Bool) (l : List (List Char)),
      (content_chunks sid cr mdl first l).map (fun c => c.created)
        = List.replicate l.length cr := by
  intro first l
  induction l generalizing first with
  | nil => rfl
  | cons p rest ih =>
      simp only [content_chunks, List.map_cons, ih, List.length_cons]
      simp [mk_content_chunk, List.replicate_succ]

theorem stream_chunks_sse_gen_length (sid : String) (cr : Int) (mdl : String)
    (text : List Char) (size : Int) :
    (stream_chunks (sse_gen sid cr mdl text size)).length
      = (chunk_text text size).length + 1 := by
  rw [stream_chunks_sse_gen]
  simp [content_chunks_length]

/-- Inversion: a successful streaming handler result is exactly `sse_gen`
applied to the captured stream id, timestamp, model, extracted assistant
text and configured chunk size. -/
theorem chat_completions_stream_inv (wf : List Char) (cs : Int)
    (body : ChatCompletionsRequest) (uuid : List Char) (hex : String) (cr : Int)
    (resp : UpstreamResp) (payload : UpstreamPayload) (evs : List SSEEvent)
    (h : chat_completions wf cs body uuid hex cr resp
          = Except.ok (payload, HandlerResponse.stream evs)) :
    evs = sse_gen ("chatcmpl-" ++ hex) cr body.model
            (extract_assistant_text (resp.json.getD (none, none)).1
              (resp.json.getD (none, none)).2) cs := by
  unfold chat_completions at h
  cases hut : extract_user_text body.messages with
  | error e => rw [hut] at h; simp at h
  | ok u =>
      rw [hut] at h
      by_cases hs : 400 ≤ resp.status_code
      · simp only [hs, if_true] at h
        simp at h
      · simp only [hs, if_false] at h
        cases hj : resp.json with
        | none => rw [hj] at h; simp at h
        | some p =>
            obtain ⟨m, e⟩ := p
            rw [hj] at h
            cases hb : body.stream with
            | false =>
                rw [hb] at h
                simp at h
            | true =>
                rw [hb] at h
                simp at h
                simp [h.2]

/-- Inversion: a successful non-streaming handler result is exactly
`non_streaming_response` applied to the captured stream id, timestamp, model
and extracted assistant text. -/
theorem chat_completions_json_inv (wf : List Char) (cs : Int)
    (body : ChatCompletionsRequest) (uuid : List Char) (hex : String) (cr : Int)
    (resp : UpstreamResp) (payload : UpstreamPayload) (env : Envelope)
    (h : chat_completions wf cs body uuid hex cr resp
          = Except.ok (payload, HandlerResponse.json env)) :
    env = non_streaming_response ("chatcmpl-" ++ hex) cr body.model
            (extract_assistant_text (resp.json.getD (none, none)).1
              (resp.json.getD (none, none)).2) := by
  unfold chat_completions at h
  cases hut : extract_user_text body.messages with
  | error e => rw [hut] at h; simp at h
  | ok u =>
      rw [hut] at h
      by_cases hs : 400 ≤ resp.status_code
      · simp only [hs, if_true] at h
        simp at h
      · simp only [hs, if_false] at h
        cases hj : resp.json with
        | none => rw [hj] at h; simp at h
        | some p =>
            obtain ⟨m, e⟩ := p
            rw [hj] at h
            cases hb : body.stream with
            | true =>
                rw [hb] at h
                simp at h
            | false =>
                rw [hb] at h
                simp at h
                simp [h.2]

/-- C9: every chunk of a single streaming response — content chunks and the
terminator alike — carries the same response id `"chatcmpl-" + hex` and the
same `created` timestamp, both captured once per request. -/
theorem stream_shares_id_and_created (wf : List Char) (cs : Int)
    (body : ChatCompletionsRequest) (uuid : List Char) (hex : String) (cr : Int)
    (resp : UpstreamResp) (payload : UpstreamPayload) (evs : List SSEEvent)
    (h : chat_completions wf cs body uuid hex cr resp
          = Except.ok (payload, HandlerResponse.stream evs)) :
    (stream_chunks evs).map (fun c => c.id)
        = List.replicate (stream_chunks evs).length ("chatcmpl-" ++ hex)
    ∧ (stream_chunks evs).map (fun c => c.created)
        = List.replicate (stream_chunks evs).length cr := by
  rw [chat_completions_stream_inv wf cs body uuid hex cr resp payload evs h]
  rw [stream_chunks_sse_gen]
  constructor
  · rw [List.map_append, content_chunks_map_id]
    simp [final_chunk, List.length_append, content_chunks_length, List.replicate_succ']
  · rw [List.map_append, content_chunks_map_created]
    simp [final_chunk, List.length_append, content_chunks_length, List.replicate_succ']

/-- The Request Translator extraction exactly as claim C2 words it: take the
first entry from the end whose role is `user` (with no non-emptiness filter
during the scan), then fail with 400 when no such entry exists or its
content is empty/whitespace-only. -/
def extract_user_text_claimed (messages : List ChatMessage) : Except HTTPError (List Char) :=
  match (messages.reverse.find? (fun m => m.role == Role.user)).map (fun m => m.content) with
  | none => Except.error ⟨400, "No user message found in messages[]".toList⟩
  | some c =>
      if strip c = [] then Except.error ⟨400, "No user message found in messages[]".toList⟩
      else Except.ok (strip c)

/-- The extraction the code actually performs: scan from the end, *skipping*
user entries whose content is the empty string, and fail with 400 when no
user entry has non-empty content or the found content is whitespace-only. -/
def extract_user_text_amended (messages : List ChatMessage) : Except HTTPError (List Char) :=
  match messages.reverse.find? (fun m => m.role == Role.user && !m.content.isEmpty) with
  | none => Except.error ⟨400, "No user message found in messages[]".toList⟩
  | some m =>
      if strip m.content = [] then Except.error ⟨400, "No user message found in messages[]".toList⟩
      else Except.ok (strip m.content)

/-- C2 counterexample: with a trailing empty-content user entry after a
non-empty one, the claim mandates a 400 (the last user entry's content is
empty), but the code skips the empty entry and succeeds with "hello". -/
theorem empty_user_entry_skipped_counterexample :
    extract_user_text
        [{ role := Role.user, content := "hello".toList },
         { role := Role.user, content := [] }]
      = Except.ok "hello".toList
    ∧ extract_user_text_claimed
        [{ role := Role.user, content := "hello".toList },
         { role := Role.user, content := [] }]
      = Except.error ⟨400, "No user message found in messages[]".toList⟩ := by
  constructor
  · rfl
  · rfl

theorem lum_loop_eq_find (l : List ChatMessage) :
    lum_loop l = (match l.find? (fun m => m.role == Role.user && !m.content.isEmpty) with
                  | none => []
                  | some m => m.content) := by
  induction l with
  | nil => rfl
  | cons m rest ih =>
      by_cases hm : m.role = Role.user ∧ m.content ≠ []
      · have hb : (m.role == Role.user && !m.content.isEmpty) = true := by
          obtain ⟨h1, h2⟩ := hm
          simp [h1, List.isEmpty_iff, h2]
        simp [lum_loop, hm, List.find?_cons, hb]
      · have hb : (m.role == Role.user && !m.content.isEmpty) = false := by
          rw [Decidable.not_and_iff_or_not] at hm
          rcases hm with h1 | h2
          · simp [h1]
          · simp only [ne_eq, Decidable.not_not] at h2
            simp [h2]
        simp [lum_loop, hm, List.find?_cons, hb, ih]

/-- C2 amended: the translator scans from the end skipping user entries with
empty content; it fails with a 400 exactly when no user entry has non-empty
content or the found content is whitespace-only, and a failing extraction
makes the whole handler fail with that same 400 error. -/
theorem user_message_extraction_amended (messages : List ChatMessage) :
    extract_user_text messages = extract_user_text_amended messages
    ∧ (∀ (wf : List Char) (cs : Int) (mdl : String) (strm : Bool)
         (usr : Option (List Char)) (uuid : List Char) (hex : String) (cr : Int)
         (resp : UpstreamResp) (e : HTTPError),
        extract_user_text messages = Except.error e →
        chat_completions wf cs ⟨mdl, messages, strm, usr⟩ uuid hex cr resp
          = Except.error e) := by
  constructor
  · unfold extract_user_text extract_user_text_amended last_user_message
    rw [lum_loop_eq_find]
    cases hf : messages.reverse.find? (fun m => m.role == Role.user && !m.content.isEmpty) with
    | none => rfl
    | some m =>
        by_cases hs : strip m.content = []
        · simp [hs]
        · simp [hs]
  · intro wf cs mdl strm usr uuid hex cr resp e he
    unfold chat_completions
    simp only [he]

/-- C1: for every answer text and every integer fragment size (any size ≥ 1,
and also size ≤ 0, which yields a single fragment), concatenating the
`delta.content` values of all emitted streaming chunks in emission order
equals the original answer text exactly — no character altered, reordered,
or dropped. -/
theorem streaming_reconstructs_answer_text (sid : String) (cr : Int) (mdl : String)
    (text : List Char) (size : Int) :
    stream_text (sse_gen sid cr mdl text size) = text :=
  stream_text_sse_gen sid cr mdl text size

theorem dropWhile_eq_self_of_all (p : Char → Bool) :
    ∀ (l : List Char), (∀ c ∈ l, p c = false) → l.dropWhile p = l := by
  intro l h
  cases l with
  | nil => rfl
  | cons c rest =>
      rw [List.dropWhile_cons]
      simp [h c (List.mem_cons_self c rest)]

theorem strip_eq_self_of_no_ws (l : List Char)
    (h : ∀ c ∈ l, c.isWhitespace = false) : strip l = l := by
  unfold strip
  rw [dropWhile_eq_self_of_all _ l h,
      dropWhile_eq_self_of_all _ l.reverse (by intro c hc; exact h c (List.mem_reverse.mp hc)),
      List.reverse_reverse]

/-- C3 counterexample: a whitespace-only session hint is truthy in Python, so
the code strips it to the empty string instead of generating a fresh
identifier; two such requests even collide on the same empty `sender_id`. -/
theorem whitespace_hint_counterexample :
    resolve_sender_id (some " ".toList) "abcd1234".toList = []
    ∧ "abcd1234".toList ≠ ([] : List Char)
    ∧ resolve_sender_id (some " ".toList) "aa".toList
        = resolve_sender_id (some " ".toList) "bb".toList := by
  refine ⟨by decide, by decide, by decide⟩

/-- C3 amended: `sender_id` is the trimmed hint whenever the hint is a
non-empty string (so a whitespace-only hint yields the empty `sender_id`,
not a fresh identifier); only an absent or empty hint falls back to the
freshly generated identifier (trimmed), and since generated identifiers are
whitespace-free, two hint-less requests with distinct identifiers receive
distinct `sender_id` values. -/
theorem sender_id_resolution_amended (u uid uid1 uid2 : List Char) :
    (u ≠ [] → resolve_sender_id (some u) uid = strip u)
    ∧ resolve_sender_id none uid = strip uid
    ∧ resolve_sender_id (some []) uid = strip uid
    ∧ ((∀ c ∈ uid1, c.isWhitespace = false) → (∀ c ∈ uid2, c.isWhitespace = false) →
        uid1 ≠ uid2 →
        resolve_sender_id none uid1 ≠ resolve_sender_id none uid2) := by
  refine ⟨?_, rfl, by simp [resolve_sender_id, py_or], ?_⟩
  · intro hu
    simp [resolve_sender_id, py_or, hu]
  · intro h1 h2 hne
    have e1 : resolve_sender_id none uid1 = uid1 := by
      unfold resolve_sender_id py_or
      simp [strip_eq_self_of_no_ws uid1 h1]
    have e2 : resolve_sender_id none uid2 = uid2 := by
      unfold resolve_sender_id py_or
      simp [strip_eq_self_of_no_ws uid2 h2]
    rw [e1, e2]
    exact hne

/-- The assistant-text extraction as the amended claim words it: the trimmed
`message` field when `message` is present and non-empty; otherwise the
trimmed `error` field when present and non-empty; otherwise the empty
string. -/
def extract_assistant_text_amended (message err : Option (List Char)) : List Char :=
  match message with
  | some s =>
      if s ≠ [] then strip s
      else
        match err with
        | some t => if t ≠ [] then strip t else []
        | none => []
  | none =>
      match err with
      | some t => if t ≠ [] then strip t else []
      | none => []

theorem strip_nil : strip ([] : List Char) = [] := rfl

/-- C4 counterexample: when the upstream body carries a *present but empty*
`message` field together with an `error` field, the claim mandates the
trimmed `message` (the empty string), but the code falls through Python's
`or` to the `error` field. -/
theorem message_fallback_counterexample :
    extract_assistant_text (some []) (some "boom".toList) = "boom".toList
    ∧ strip ([] : List Char) = []
    ∧ "boom".toList ≠ ([] : List Char) := by
  refine ⟨by decide, by decide, by decide⟩

/-- C4 amended: the text is the trimmed `message` field when `message` is
present and non-empty; the `error` field is used whenever `message` is
absent *or empty* (Python falsiness), and the empty string when both are
absent or empty; this single extracted text is the one used by both the
streaming and the non-streaming response modes. -/
theorem assistant_text_extraction_amended :
    (∀ (m e : Option (List Char)),
      extract_assistant_text m e = extract_assistant_text_amended m e)
    ∧ (∀ (wf : List Char) (cs : Int) (body : ChatCompletionsRequest)
         (uuid : List Char) (hex : String) (cr : Int) (resp : UpstreamResp)
         (payload : UpstreamPayload) (evs : List SSEEvent),
        chat_completions wf cs body uuid hex cr resp
            = Except.ok (payload, HandlerResponse.stream evs) →
        stream_text evs
          = extract_assistant_text (resp.json.getD (none, none)).1
              (resp.json.getD (none, none)).2)
    ∧ (∀ (wf : List Char) (cs : Int) (body : ChatCompletionsRequest)
         (uuid : List Char) (hex : String) (cr : Int) (resp : UpstreamResp)
         (payload : UpstreamPayload) (env : Envelope),
        chat_completions wf cs body uuid hex cr resp
            = Except.ok (payload, HandlerResponse.json env) →
        env.choices.map (fun c => c.message.content)
          = [extract_assistant_text (resp.json.getD (none, none)).1
              (resp.json.getD (none, none)).2]) := by
  refine ⟨?_, ?_, ?_⟩
  · intro m e
    cases m with
    | none =>
        cases e with
        | none => rfl
        | some t =>
            by_cases ht : t = []
            · simp [extract_assistant_text, extract_assistant_text_amended, py_or, ht, strip_nil]
            · simp [extract_assistant_text, extract_assistant_text_amended, py_or, ht]
    | some s =>
        by_cases hs : s = []
        · cases e with
          | none => simp [extract_assistant_text, extract_assistant_text_amended, py_or, hs, strip_nil]
          | some t =>
              by_cases ht : t = []
              · simp [extract_assistant_text, extract_assistant_text_amended, py_or, hs, ht, strip_nil]
              · simp [extract_assistant_text, extract_assistant_text_amended, py_or, hs, ht]
        · simp [extract_assistant_text, extract_assistant_text_amended, py_or, hs]
  · intro wf cs body uuid hex cr resp payload evs h
    rw [chat_completions_stream_inv wf cs body uuid hex cr resp payload evs h]
    exact stream_text_sse_gen _ _ _ _ _
  · intro wf cs body uuid hex cr resp payload env h
    rw [chat_completions_json_inv wf cs body uuid hex cr resp payload env h]
    simp [non_streaming_response]

/-- C7: an upstream response with HTTP status ≥ 400 makes the adapter fail
with HTTP 502 — never the upstream's own status code — and the error detail
contains both the upstream status code and the raw upstream body. -/
theorem upstream_error_maps_to_502 (wf : List Char) (cs : Int)
    (body : ChatCompletionsRequest) (uuid : List Char) (hex : String) (cr : Int)
    (resp : UpstreamResp) (u : List Char)
    (hok : extract_user_text body.messages = Except.ok u)
    (hst : 400 ≤ resp.status_code) :
    ∃ d, chat_completions wf cs body uuid hex cr resp = Except.error ⟨502, d⟩
      ∧ (∃ pre post, d = pre ++ (toString resp.status_code).toList ++ post)
      ∧ (∃ pre, d = pre ++ resp.text) := by
  refine ⟨"Lili error ".toList ++ (toString resp.status_code).toList
            ++ ": ".toList ++ resp.text, ?_,
          ⟨"Lili error ".toList, ": ".toList ++ resp.text, by simp [List.append_assoc]⟩,
          ⟨"Lili error ".toList ++ (toString resp.status_code).toList ++ ": ".toList,
           by simp [List.append_assoc]⟩⟩
  unfold chat_completions
  rw [hok]
  simp only [hst, if_true]

/-- C8 counterexample: a successful non-streaming round trip where the
upstream `message` field has surrounding whitespace — the adapter strips it,
so `choices[0].message.content` is not the `message` field verbatim. -/
theorem verbatim_roundtrip_counterexample :
    chat_completions "213".toList 40
        { model := "m", messages := [{ role := Role.user, content := "Hello".toList }],
          stream := false, user := none }
        "u".toList "h" 0
        { status_code := 200, text := [], json := some (some " Hi ".toList, none) }
      = Except.ok
          ({ workflow_id := "213".toList, sender_id := "u".toList,
             user_message := "Hello".toList },
           HandlerResponse.json
             (non_streaming_response ("chatcmpl-" ++ "h") 0 "m" "Hi".toList))
    ∧ "Hi".toList ≠ " Hi ".toList := by
  refine ⟨rfl, by decide⟩

/-- C8 amended: a successful non-streaming request returns exactly one
completion envelope with `finish_reason: "stop"`, whose content is the
*whitespace-trimmed* upstream text (message field with error fallback); it
is the upstream `message` field verbatim exactly when that field is
non-empty and has no surrounding whitespace. -/
theorem nonstreaming_envelope_amended (wf : List Char) (cs : Int)
    (body : ChatCompletionsRequest) (uuid : List Char) (hex : String) (cr : Int)
    (resp : UpstreamResp) (payload : UpstreamPayload) (env : Envelope)
    (h : chat_completions wf cs body uuid hex cr resp
          = Except.ok (payload, HandlerResponse.json env)) :
    env.choices
        = [{ index := 0
             message := { role := "assistant"
                          content := extract_assistant_text (resp.json.getD (none, none)).1
                            (resp.json.getD (none, none)).2 }
             finish_reason := some "stop" }]
    ∧ (∀ (s : List Char) (e2 : Option (List Char)),
        resp.json = some (some s, e2) → s ≠ [] → strip s = s →
        env.choices.map (fun c => c.message.content) = [s]) := by
  have he := chat_completions_json_inv wf cs body uuid hex cr resp payload env h
  constructor
  · rw [he]
    rfl
  · intro s e2 hj hne hstr
    rw [he, hj]
    simp [non_streaming_response, extract_assistant_text, py_or, hne, hstr]

theorem chunk_text_nil_pos (size : Int) (hs : 0 < size) :
    chunk_text [] size = [] := by
  unfold chunk_text
  have h1 : ¬ size ≤ 0 := by omega
  simp only [h1, if_false, List.length_nil]
  have h2 : (0 + size.toNat - 1) / size.toNat = 0 :=
    Nat.div_eq_of_lt (by omega)
  rw [h2]
  rfl

/-- C10: on empty answer text, the number of streaming content chunks
depends on the sign of the fragment size — a positive size yields zero
content chunks (and then no emitted chunk carries a `role` at all), while a
non-positive size yields exactly one content chunk with empty content and
`role: "assistant"`. -/
theorem empty_text_chunk_count (sid : String) (cr : Int) (mdl : String) (size : Int) :
    (0 < size →
      stream_content_chunks (sse_gen sid cr mdl [] size) = []
      ∧ (stream_chunks (sse_gen sid cr mdl [] size)).map chunk_roles
          = [[(none : Option String)]])
    ∧ (size ≤ 0 →
      (stream_content_chunks (sse_gen sid cr mdl [] size)).map chunk_contents
          = [[some ([] : List Char)]]
      ∧ (stream_content_chunks (sse_gen sid cr mdl [] size)).map chunk_roles
          = [[some "assistant"]]) := by
  constructor
  · intro hs
    have hc := chunk_text_nil_pos size hs
    constructor
    · rw [stream_content_chunks_sse_gen, hc]
      rfl
    · rw [stream_chunks_sse_gen, hc]
      simp [content_chunks, chunk_roles, final_chunk]
  · intro hs
    have hc : chunk_text [] size = [[]] := by
      unfold chunk_text
      simp [hs]
    constructor
    · rw [stream_content_chunks_sse_gen, hc]
      simp [content_chunks, chunk_contents, mk_content_chunk]
    · rw [stream_content_chunks_sse_gen, hc]
      simp [content_chunks, chunk_roles, mk_content_chunk]

theorem user_message_extraction_amended_witness :
    extract_user_text [{ role := Role.system, content := "x".toList }]
        = extract_user_text_amended [{ role := Role.system, content := "x".toList }]
    ∧ chat_completions "213".toList 40
        { model := "m", messages := [{ role := Role.system, content := "x".toList }],
          stream := false, user := none }
        "u".toList "h" 0 { status_code := 200, text := [], json := none }
        = Except.error ⟨400, "No user message found in messages[]".toList⟩ := by
  have h := user_message_extraction_amended [{ role := Role.system, content := "x".toList }]
  exact ⟨h.1, h.2 "213".toList 40 "m" false none "u".toList "h" 0 ⟨200, [], none⟩
    ⟨400, "No user message found in messages[]".toList⟩ rfl⟩

theorem sender_id_resolution_amended_witness :
    resolve_sender_id (some " x ".toList) "u1".toList = strip " x ".toList
    ∧ resolve_sender_id none "u1".toList = strip "u1".toList
    ∧ resolve_sender_id (some []) "u1".toList = strip "u1".toList
    ∧ resolve_sender_id none "aa".toList ≠ resolve_sender_id none "ab".toList := by
  have h := sender_id_resolution_amended " x ".toList "u1".toList "aa".toList "ab".toList
  exact ⟨h.1 (by decide), h.2.1, h.2.2.1, h.2.2.2 (by decide) (by decide) (by decide)⟩

theorem assistant_text_extraction_amended_witness :
    extract_assistant_text (some "Hi".toList) none
        = extract_assistant_text_amended (some "Hi".toList) none
    ∧ stream_text (sse_gen ("chatcmpl-" ++ "h") 0 "m" "Hi there".toList 5)
        = extract_assistant_text (some "Hi there".toList) none
    ∧ (non_streaming_response ("chatcmpl-" ++ "h") 0 "m" "Hi".toList).choices.map
          (fun c => c.message.content)
        = [extract_assistant_text (some "Hi".toList) none] := by
  have h := assistant_text_extraction_amended
  refine ⟨h.1 (some "Hi".toList) none, ?_, ?_⟩
  · exact h.2.1 "213".toList 5
      { model := "m", messages := [{ role := Role.user, content := "Hello".toList }],
        stream := true, user := none }
      "u".toList "h" 0 { status_code := 200, text := [], json := some (some "Hi there".toList, none) }
      { workflow_id := "213".toList, sender_id := "u".toList, user_message := "Hello".toList }
      (sse_gen ("chatcmpl-" ++ "h") 0 "m" "Hi there".toList 5) rfl
  · exact h.2.2 "213".toList 40
      { model := "m", messages := [{ role := Role.user, content := "Hello".toList }],
        stream := false, user := none }
      "u".toList "h" 0 { status_code := 200, text := [], json := some (some "Hi".toList, none) }
      { workflow_id := "213".toList, sender_id := "u".toList, user_message := "Hello".toList }
      (non_streaming_response ("chatcmpl-" ++ "h") 0 "m" "Hi".toList) rfl

theorem upstream_error_maps_to_502_witness :
    ∃ d, chat_completions "213".toList 40
        { model := "m", messages := [{ role := Role.user, content := "Hello".toList }],
          stream := false, user := none }
        "u".toList "h" 0 { status_code := 500, text := "oops".toList, json := none }
      = Except.error ⟨502, d⟩
      ∧ (∃ pre post, d = pre ++ (toString (500 : Nat)).toList ++ post)
      ∧ (∃ pre, d = pre ++ "oops".toList) :=
  upstream_error_maps_to_502 "213".toList 40
    { model := "m", messages := [{ role := Role.user, content := "Hello".toList }],
      stream := false, user := none }
    "u".toList "h" 0 { status_code := 500, text := "oops".toList, json := none }
    "Hello".toList rfl (by decide)

theorem nonstreaming_envelope_amended_witness :
    (non_streaming_response ("chatcmpl-" ++ "h") 0 "m" "Hi".toList).choices
        = [{ index := 0
             message := { role := "assistant", content := "Hi".toList }
             finish_reason := some "stop" }]
    ∧ (non_streaming_response ("chatcmpl-" ++ "h") 0 "m" "Hi".toList).choices.map
          (fun c => c.message.content) = ["Hi".toList] := by
  have h := nonstreaming_envelope_amended "213".toList 40
      { model := "m", messages := [{ role := Role.user, content := "Hello".toList }],
        stream := false, user := none }
      "u".toList "h" 0 { status_code := 200, text := [], json := some (some "Hi".toList, none) }
      { workflow_id := "213".toList, sender_id := "u".toList, user_message := "Hello".toList }
      (non_streaming_response ("chatcmpl-" ++ "h") 0 "m" "Hi".toList) rfl
  exact ⟨h.1, h.2 "Hi".toList none rfl (by decide) (by decide)⟩

theorem stream_shares_id_and_created_witness :
    (stream_chunks (sse_gen ("chatcmpl-" ++ "h") 0 "m" "Hi there".toList 5)).map (fun c => c.id)
        = List.replicate
            (stream_chunks (sse_gen ("chatcmpl-" ++ "h") 0 "m" "Hi there".toList 5)).length
            ("chatcmpl-" ++ "h")
    ∧ (stream_chunks (sse_gen ("chatcmpl-" ++ "h") 0 "m" "Hi there".toList 5)).map
          (fun c => c.created)
        = List.replicate
            (stream_chunks (sse_gen ("chatcmpl-" ++ "h") 0 "m" "Hi there".toList 5)).length
            (0 : Int) :=
  stream_shares_id_and_created "213".toList 5
    { model := "m", messages := [{ role := Role.user, content := "Hello".toList }],
      stream := true, user := none }
    "u".toList "h" 0 { status_code := 200, text := [], json := some (some "Hi there".toList, none) }
    { workflow_id := "213".toList, sender_id := "u".toList, user_message := "Hello".toList }
    (sse_gen ("chatcmpl-" ++ "h") 0 "m" "Hi there".toList 5) rfl

theorem empty_text_chunk_count_witness :
    (stream_content_chunks (sse_gen "i" 0 "m" [] 5) = []
      ∧ (stream_chunks (sse_gen "i" 0 "m" [] 5)).map chunk_roles = [[(none : Option String)]])
    ∧ ((stream_content_chunks (sse_gen "i" 0 "m" [] 0)).map chunk_contents
          = [[some ([] : List Char)]]
      ∧ (stream_content_chunks (sse_gen "i" 0 "m" [] 0)).map chunk_roles
          = [[some "assistant"]]) :=
  ⟨(empty_text_chunk_count "i" 0 "m" 5).1 (by decide),
   (empty_text_chunk_count "i" 0 "m" 0).2 (by decide)⟩
